import Mathlib

/-!
Verification of the UV-oven controller (`src/main.py`).

The controller is a single-threaded super loop over global state.  We embed it
shallowly: the globals become fields of `State`, one loop iteration becomes the
pure function `tick : State → Input → State`, and the per-tick hardware samples
(encoder delta, button level, long-press classification, lid switch, current
millisecond timestamp, file-write success) become fields of `Input`.  Float
arithmetic on durations (`v / 1000.0`, `i / 100.0`) is embedded as exact `Rat`
arithmetic; every value involved is small and exactly representable, and every
claim is about equalities/comparisons these values satisfy exactly.

Write-only peripheral outputs (LCD text, buzzer beeps, NeoPixel colours) and
the blocking sleeps around them are not modelled: no claim observes them.  The
busy-wait long-press classifier is modelled by the per-tick `is_long` flag
(whether the press was still held at the 600ms threshold), which is the only
datum the source derives from the busy wait.
-/

set_option maxHeartbeats 1000000

namespace UVOven

/-- One exposure step: time-unit index `u`, value `v` in the unit's native
scale, UV intensity `i` in percent (the step dicts of the source). -/
structure Step where
  u : Int
  v : Int
  i : Int
deriving DecidableEq, Repr

/-- A custom program record with `name`, `loops` and ordered `steps`. -/
structure Program where
  name : String
  loops : Int
  steps : List Step
deriving DecidableEq, Repr

def defaultStep : Step := ⟨0, 0, 0⟩
def defaultProgram : Program := ⟨"", 0, []⟩

/-- An entry of the `TIME_UNITS` table: display name, default, min, max. -/
structure TimeUnit where
  uname : String
  dflt : Int
  minv : Int
  maxv : Int
deriving DecidableEq, Repr

/-- `TIME_UNITS` from the source. -/
def TIME_UNITS : List TimeUnit :=
  [⟨"min:sec", 60, 1, 3600⟩, ⟨"hr:min", 30, 1, 1440⟩, ⟨"sec:ms", 1000, 100, 60000⟩]

/-- `TIME_STEPS` from the source: encoder step value per unit. -/
def TIME_STEPS : List Int := [1, 1, 100]

def unitAt (i : Int) : TimeUnit := TIME_UNITS.getD i.toNat ⟨"", 0, 0, 0⟩
def stepAt (i : Int) : Int := TIME_STEPS.getD i.toNat 0

def INT_MIN : Int := 0
def INT_MAX : Int := 100
def INT_STEP : Int := 1

-- Mode / sub-state sentinel constants, exactly as in the source.
def MODE_MAIN_MENU : Int := 0
def MODE_SIMPLE : Int := 1
def MODE_CUSTOM_MENU : Int := 2
def MODE_CUSTOM_CREATE : Int := 3

def S_IDLE : Int := 0
def S_SET_TIME_UNIT : Int := 1
def S_SET_TIME : Int := 2
def S_SET_INTENS : Int := 3
def S_RUNNING : Int := 4
def S_DONE : Int := 5

def C_MENU_LOAD : Int := 0
def C_MENU_CREATE : Int := 1
def C_MENU_RUN : Int := 2

def C_CREATE_START : Int := 0
def C_CREATE_SET_TIME_UNIT : Int := 1
def C_CREATE_SET_TIME : Int := 2
def C_CREATE_SET_INTENS : Int := 3
def C_CREATE_ADD_STEP : Int := 4
def C_CREATE_SET_LOOPS : Int := 5
def C_CREATE_SET_NAME : Int := 6
def C_CREATE_SAVE_PROG : Int := 7

def C_RUN_START : Int := 0
def C_RUN_STEP : Int := 1
def C_RUN_DONE : Int := 2

def C_LOAD_SELECT : Int := 0

/-- `(1 if d > 0 else -1)` -- the direction factor used by every rotation
handler in the source. -/
def sgn (d : Int) : Int := if 0 < d then 1 else -1

/-- `(idx + (1 if d > 0 else -1)) % n`: the wraparound rotation used by the
index-style selectors (time unit, custom menu, load list).  `%` is Python's
nonnegative modulo, which is `Int.emod` for a positive modulus. -/
def rotIdx (i d n : Int) : Int := (i + sgn d) % n

/-- `S_SET_TIME` / `C_CREATE_SET_TIME` rotation:
`max(min_val, min(max_val, value + step * (1 if d > 0 else -1)))`. -/
def setTimeAdjust (u v d : Int) : Int :=
  max (unitAt u).minv (min (unitAt u).maxv (v + stepAt u * sgn d))

/-- `S_SET_INTENS` / `C_CREATE_SET_INTENS` rotation:
`max(INT_MIN, min(INT_MAX, s_set_int + INT_STEP*(1 if d>0 else -1)))`. -/
def setIntensAdjust (v d : Int) : Int :=
  max INT_MIN (min INT_MAX (v + INT_STEP * sgn d))

/-- `C_CREATE_SET_LOOPS` rotation: `max(1, min(99, loops + (1 if d>0 else -1)))`. -/
def setLoopsAdjust (n d : Int) : Int := max 1 (min 99 (n + sgn d))

-- ------------------------------------------------------------------
-- Program-name strings "P-NN" (`f"P-{p_num:02d}"` and `int(name.split('-')[1])`)
-- ------------------------------------------------------------------

def digitChar (m : Nat) : Char := Char.ofNat (48 + m)

/-- Decimal digits of a natural number (fuel-based, fuel `m+1` suffices). -/
def natDigitsAux : Nat → Nat → List Char
  | 0, _ => []
  | fuel + 1, m => if m < 10 then [digitChar m] else natDigitsAux fuel (m / 10) ++ [digitChar (m % 10)]

def natStr (m : Nat) : String := String.mk (natDigitsAux (m + 1) m)

/-- Python's `f"{m:02d}"` for a nonnegative value. -/
def pad2 (m : Nat) : String := if m < 10 then "0" ++ natStr m else natStr m

/-- `f"P-{p_num:02d}"` (all call sites pass a value `≥ 1`). -/
def fmtPNum (n : Int) : String := "P-" ++ pad2 n.toNat

/-- Python's `str.split('-')` on a character list. -/
def splitDash : List Char → List (List Char)
  | [] => [[]]
  | c :: rest =>
    match splitDash rest with
    | [] => [[]]
    | h :: t => if c = '-' then [] :: h :: t else (c :: h) :: t

def digitsValAux (acc : Nat) : List Char → Option Nat
  | [] => some acc
  | c :: r => if '0' ≤ c ∧ c ≤ '9' then digitsValAux (acc * 10 + (c.toNat - 48)) r else none

/-- Python's `int(s)` on a digit string (`none` models the `ValueError`). -/
def parseIntChars : List Char → Option Int
  | [] => none
  | '-' :: ds =>
    match ds with
    | [] => none
    | _ => (digitsValAux 0 ds).map (fun v => -(v : Int))
  | ds => (digitsValAux 0 ds).map (fun v => (v : Int))

/-- `int(temp_program_name.split('-')[1])` with the `except: p_num = 1` failsafe. -/
def parsePNum (s : String) : Int :=
  match splitDash s.toList with
  | _ :: t :: _ =>
    match parseIntChars t with
    | some v => v
    | none => 1
  | _ => 1

/-- `C_CREATE_SET_NAME` rotation: parse the numeric suffix (failsafe 1), clamp
`max(1, min(99, p_num ± 1))`, re-format. -/
def setNameAdjust (name : String) (d : Int) : String :=
  fmtPNum (max 1 (min 99 (parsePNum name + sgn d)))

/-- The `while f"P-{p_num:02d}" in p_names: p_num += 1` search (fuel-based;
fuel `names.length + 1` always suffices since the candidate names are
pairwise distinct). -/
def firstFreeAux (names : List String) : Nat → Int → Int
  | 0, n => n
  | fuel + 1, n => if fmtPNum n ∈ names then firstFreeAux names fuel (n + 1) else n

def first_free_pnum (names : List String) : Int := firstFreeAux names (names.length + 1) 1

-- ------------------------------------------------------------------
-- Kernel-computable exact arithmetic for the float expressions of the source
-- ------------------------------------------------------------------

/-- `x / k` as a rational, in kernel-computable form (`Rat.div` itself is
irreducible).  `qdiv_eq` below shows it is exactly rational division. -/
def qdiv (x : Int) (k : Nat) : Rat := mkRat x k

/-- Exact rational subtraction in kernel-computable form (`qsub_eq`). -/
def qsub (a b : Rat) : Rat := mkRat (a.num * b.den - b.num * a.den) (a.den * b.den)

/-- `max(0, a)` in kernel-computable form (`qmax0_eq`). -/
def qmax0 (a : Rat) : Rat := if 0 ≤ a then a else 0

theorem qdiv_eq (x : Int) (k : Nat) : qdiv x k = (x : Rat) / (k : Rat) := by
  simp [qdiv, Rat.mkRat_eq_div]

theorem qsub_eq (a b : Rat) : qsub a b = a - b := by
  have ha : ((a.den : Rat)) ≠ 0 := by exact_mod_cast a.den_nz
  have hb : ((b.den : Rat)) ≠ 0 := by exact_mod_cast b.den_nz
  rw [qsub, Rat.mkRat_eq_div]
  conv_rhs => rw [← Rat.num_div_den a, ← Rat.num_div_den b]
  rw [div_sub_div _ _ ha hb]
  push_cast
  ring_nf

theorem qmax0_eq (a : Rat) : qmax0 a = max 0 a := by
  simp [qmax0, max_def]

-- ------------------------------------------------------------------
-- Durations and persistence helpers
-- ------------------------------------------------------------------

/-- `get_duration_sec` from the source: runtime in seconds of a step. -/
def get_duration_sec (st : Step) : Rat :=
  if st.u = 0 then qdiv st.v 1
  else if st.u = 1 then qdiv (st.v * 60) 1
  else if st.u = 2 then qdiv st.v 1000
  else 0

/-- The inline simple-mode conversion (`S_SET_INTENS` confirm): if the unit
index is not 0/1/2 the source leaves `s_run_duration_sec` unchanged. -/
def simple_duration (idx v : Int) (old : Rat) : Rat :=
  if idx = 0 then qdiv v 1
  else if idx = 1 then qdiv (v * 60) 1
  else if idx = 2 then qdiv v 1000
  else old

/-- Abstract content of the persisted programs file. -/
inductive FileContent
  | missing
  | corrupt
  | good (programs : List Program)
deriving DecidableEq

/-- The `open`+`json.load` part of `load_programs_from_file`: an exception for
a missing or corrupt file, the parsed list otherwise. -/
def readAndParse : FileContent → Except String (List Program)
  | .missing => .error "ENOENT"
  | .corrupt => .error "JSONDecodeError"
  | .good ps => .ok ps

/-- `load_programs_from_file`: any exception is caught and yields `[]`. -/
def load_programs_from_file (fc : FileContent) : List Program :=
  match readAndParse fc with
  | .ok ps => ps
  | .error _ => []

/-- The `found_idx` scan of the `C_CREATE_SAVE_PROG` handler: index of the
first entry with the given name, `-1` when absent. -/
def findNameIdxAux (nm : String) : List Program → Int
  | [] => -1
  | p :: rest =>
    if p.name = nm then 0
    else
      let r := findNameIdxAux nm rest
      if r = -1 then -1 else r + 1

def findNameIdx (store : List Program) (nm : String) : Int := findNameIdxAux nm store

/-- The save logic of `C_CREATE_SAVE_PROG`: replace-by-name in place, else
append. -/
def saveProgram (store : List Program) (prog : Program) : List Program :=
  let i := findNameIdx store prog.name
  if i ≠ -1 then store.set i.toNat prog else store ++ [prog]

-- ------------------------------------------------------------------
-- The super-loop state and per-tick input
-- ------------------------------------------------------------------

/-- The mutable globals of the source, one field each. -/
structure State where
  main_state : Int
  main_menu_idx : Int
  simple_state : Int
  custom_menu_idx : Int
  create_state : Int
  run_state : Int
  load_state : Int
  load_program_idx : Int
  s_current_time_unit_idx : Int
  s_set_value : Int
  s_set_int : Int
  s_run_duration_sec : Rat
  s_start_ts : Option Int
  saved_programs : List Program
  current_program : Program
  temp_step : Step
  temp_program_name : String
  temp_program_loops : Int
  c_run_duration_sec : Rat
  c_start_ts : Option Int
  c_run_current_step : Int
  c_run_current_loop : Int
  temp_add_another : Bool
  uv : Rat
  file : FileContent
  lastWrite : Option (List Program)
deriving DecidableEq

/-- The hardware samples one loop iteration consumes: encoder delta, button
level, ≥600ms long-press classification, lid switch (`true` = open), current
`ticks_ms` timestamp, and whether a file write issued this tick succeeds. -/
structure Input where
  d : Int
  pressed : Bool
  is_long : Bool
  lid : Bool
  now : Int
  saveOk : Bool
deriving DecidableEq

-- ------------------------------------------------------------------
-- The state-machine handlers (one per top-level mode)
-- ------------------------------------------------------------------

/-- `MODE_MAIN_MENU` branch of the super loop. -/
def tickMainMenu (s : State) (inp : Input) : State :=
  let s1 := if inp.d ≠ 0 then { s with main_menu_idx := (s.main_menu_idx + 1) % 2 } else s
  if inp.pressed = true then
    if inp.lid = true then s1
    else if s1.main_menu_idx = 0 then { s1 with main_state := MODE_SIMPLE, simple_state := S_IDLE }
    else if s1.main_menu_idx = 1 then { s1 with main_state := MODE_CUSTOM_MENU, custom_menu_idx := 0 }
    else s1
  else s1

/-- `MODE_SIMPLE` branch of the super loop. -/
def tickSimple (s : State) (inp : Input) : State :=
  if s.simple_state = S_IDLE then
    if inp.pressed = true then
      if inp.lid = true then s else { s with simple_state := S_SET_TIME_UNIT }
    else s
  else if s.simple_state = S_SET_TIME_UNIT then
    let s1 :=
      if inp.d ≠ 0 then
        let idx := rotIdx s.s_current_time_unit_idx inp.d 3
        { s with s_current_time_unit_idx := idx, s_set_value := (unitAt idx).dflt }
      else s
    if inp.pressed = true then { s1 with simple_state := S_SET_TIME } else s1
  else if s.simple_state = S_SET_TIME then
    let s1 :=
      if inp.d ≠ 0 then
        { s with s_set_value := setTimeAdjust s.s_current_time_unit_idx s.s_set_value inp.d }
      else s
    if inp.pressed = true then { s1 with simple_state := S_SET_INTENS } else s1
  else if s.simple_state = S_SET_INTENS then
    let s1 := if inp.d ≠ 0 then { s with s_set_int := setIntensAdjust s.s_set_int inp.d } else s
    if inp.pressed = true then
      if inp.lid = true then s1
      else
        { s1 with
          s_run_duration_sec := simple_duration s1.s_current_time_unit_idx s1.s_set_value s1.s_run_duration_sec,
          uv := qdiv s1.s_set_int 100,
          s_start_ts := some inp.now,
          simple_state := S_RUNNING }
    else s1
  else if s.simple_state = S_RUNNING then
    let elapsed : Rat := qdiv (inp.now - s.s_start_ts.getD 0) 1000
    let remain : Rat := qmax0 (qsub s.s_run_duration_sec elapsed)
    let s1 :=
      if inp.pressed = true ∧ inp.is_long = true then
        { s with uv := 0, s_start_ts := none, simple_state := S_IDLE, main_state := MODE_MAIN_MENU }
      else s
    -- note: in the source the expiry check is a second `if`, not an `elif`,
    -- so it also fires on a tick that just performed the long-press cancel.
    if remain ≤ 0 then { s1 with uv := 0, s_start_ts := none, simple_state := S_DONE } else s1
  else if s.simple_state = S_DONE then
    if inp.pressed = true then { s with simple_state := S_IDLE, main_state := MODE_MAIN_MENU } else s
  else s

/-- The active-run drive of `MODE_CUSTOM_MENU` (`c_start_ts is not None`). -/
def runDrive (s : State) (inp : Input) : State :=
  let elapsed : Rat := qdiv (inp.now - s.c_start_ts.getD 0) 1000
  let remain : Rat := qmax0 (qsub s.c_run_duration_sec elapsed)
  let s1 :=
    if inp.pressed = true ∧ inp.is_long = true then
      { s with uv := 0, c_start_ts := none, main_state := MODE_MAIN_MENU }
    else s
  -- as in simple mode, the expiry check below is a second `if`, not an `elif`.
  if remain ≤ 0 then
    let st' := s.c_run_current_step + 1
    if st' ≥ (s.current_program.steps.length : Int) then
      let lp' := s.c_run_current_loop + 1
      if lp' > s.current_program.loops then
        { s1 with
          c_run_current_step := 0, c_run_current_loop := lp', uv := 0,
          c_start_ts := none, run_state := C_RUN_DONE }
      else
        let ns := s.current_program.steps.getD 0 defaultStep
        { s1 with
          c_run_current_step := 0, c_run_current_loop := lp',
          uv := qdiv ns.i 100, c_run_duration_sec := get_duration_sec ns,
          c_start_ts := some inp.now }
    else
      let ns := s.current_program.steps.getD st'.toNat defaultStep
      { s1 with
        c_run_current_step := st',
        uv := qdiv ns.i 100, c_run_duration_sec := get_duration_sec ns,
        c_start_ts := some inp.now }
  else s1

/-- The `run_state == C_RUN_DONE` acknowledgement of `MODE_CUSTOM_MENU`. -/
def runDoneAck (s : State) (inp : Input) : State :=
  if inp.pressed = true then { s with run_state := C_RUN_START, main_state := MODE_MAIN_MENU } else s

/-- Custom-menu navigation (`load_state == -1`). -/
def customNav (s : State) (inp : Input) : State :=
  let s1 := if inp.d ≠ 0 then { s with custom_menu_idx := rotIdx s.custom_menu_idx inp.d 3 } else s
  if inp.pressed = true then
    if inp.is_long = true then { s1 with main_state := MODE_MAIN_MENU }
    else if inp.lid = true then s1
    else if s1.custom_menu_idx = C_MENU_LOAD then
      if s1.saved_programs = [] then { s1 with load_program_idx := 0, load_state := -1 }
      else { s1 with load_state := C_LOAD_SELECT, load_program_idx := 0 }
    else if s1.custom_menu_idx = C_MENU_CREATE then
      { s1 with
        main_state := MODE_CUSTOM_CREATE, create_state := C_CREATE_START,
        current_program := ⟨"New", 1, []⟩, temp_step := defaultStep }
    else if s1.custom_menu_idx = C_MENU_RUN then
      if s1.current_program.steps = [] then s1
      else
        let st0 := s1.current_program.steps.getD 0 defaultStep
        { s1 with
          run_state := C_RUN_START, c_run_current_step := 0, c_run_current_loop := 1,
          uv := qdiv st0.i 100, c_run_duration_sec := get_duration_sec st0,
          c_start_ts := some inp.now }
    else s1
  else s1

/-- The trailing `if load_state != -1` block of `MODE_CUSTOM_MENU`.  `pressed`
is passed separately: a press already classified by the navigation handler in
the same tick has been released by the time this block samples the button. -/
def loadBlock (s : State) (inp : Input) (pressed : Bool) : State :=
  if s.load_state = C_LOAD_SELECT then
    let s1 :=
      if inp.d ≠ 0 ∧ s.saved_programs ≠ [] then
        { s with load_program_idx := rotIdx s.load_program_idx inp.d (s.saved_programs.length : Int) }
      else s
    if pressed = true then
      if inp.is_long = true then { s1 with load_state := -1 }
      else if s1.saved_programs ≠ [] then
        { s1 with
          current_program := s1.saved_programs.getD s1.load_program_idx.toNat defaultProgram,
          load_state := -1 }
      else s1
    else s1
  else s

/-- `MODE_CUSTOM_MENU` branch of the super loop: the run-drive / done / nav
`elif` chain followed by the separate load block. -/
def tickCustomMenu (s : State) (inp : Input) : State :=
  let sc : State × Bool :=
    if s.c_start_ts ≠ none then (runDrive s inp, false)
    else if s.run_state = C_RUN_DONE then (runDoneAck s inp, false)
    else if s.load_state = -1 then (customNav s inp, inp.pressed)
    else (s, false)
  if sc.1.load_state ≠ -1 then loadBlock sc.1 inp (inp.pressed && !sc.2) else sc.1

/-- The short-press confirmation chain of `MODE_CUSTOM_CREATE`. -/
def createConfirm (s : State) (inp : Input) : State :=
  if s.create_state = C_CREATE_START then
    { s with
      create_state := C_CREATE_SET_TIME_UNIT, s_current_time_unit_idx := 0,
      s_set_value := (unitAt 0).dflt }
  else if s.create_state = C_CREATE_SET_TIME_UNIT then
    { s with
      create_state := C_CREATE_SET_TIME,
      temp_step := ⟨s.s_current_time_unit_idx, s.s_set_value, 0⟩ }
  else if s.create_state = C_CREATE_SET_TIME then
    { s with
      temp_step := { s.temp_step with v := s.s_set_value },
      create_state := C_CREATE_SET_INTENS, s_set_int := 50 }
  else if s.create_state = C_CREATE_SET_INTENS then
    let st := { s.temp_step with i := s.s_set_int }
    { s with
      temp_step := st,
      current_program := { s.current_program with steps := s.current_program.steps ++ [st] },
      create_state := C_CREATE_ADD_STEP, temp_add_another := true }
  else if s.create_state = C_CREATE_ADD_STEP then
    if s.temp_add_another = true then
      { s with
        create_state := C_CREATE_SET_TIME_UNIT, s_current_time_unit_idx := 0,
        s_set_value := (unitAt 0).dflt }
    else
      { s with create_state := C_CREATE_SET_LOOPS, temp_program_loops := 1 }
  else if s.create_state = C_CREATE_SET_LOOPS then
    { s with
      current_program := { s.current_program with loops := s.temp_program_loops },
      create_state := C_CREATE_SET_NAME,
      temp_program_name := fmtPNum (first_free_pnum (s.saved_programs.map (fun p => p.name))) }
  else if s.create_state = C_CREATE_SET_NAME then
    { s with
      current_program := { s.current_program with name := s.temp_program_name },
      create_state := C_CREATE_SAVE_PROG }
  else if s.create_state = C_CREATE_SAVE_PROG then
    let store' := saveProgram s.saved_programs s.current_program
    { s with
      saved_programs := store', lastWrite := some store',
      file := if inp.saveOk = true then FileContent.good store' else s.file,
      main_state := MODE_CUSTOM_MENU, custom_menu_idx := 0 }
  else s

/-- The rotation chain of `MODE_CUSTOM_CREATE` (only reached with no press). -/
def createRotate (s : State) (inp : Input) : State :=
  if s.create_state = C_CREATE_SET_TIME_UNIT then
    let idx := rotIdx s.s_current_time_unit_idx inp.d 3
    { s with s_current_time_unit_idx := idx, s_set_value := (unitAt idx).dflt }
  else if s.create_state = C_CREATE_SET_TIME then
    { s with s_set_value := setTimeAdjust s.temp_step.u s.s_set_value inp.d }
  else if s.create_state = C_CREATE_SET_INTENS then
    { s with s_set_int := setIntensAdjust s.s_set_int inp.d }
  else if s.create_state = C_CREATE_ADD_STEP then
    { s with temp_add_another := !s.temp_add_another }
  else if s.create_state = C_CREATE_SET_LOOPS then
    { s with temp_program_loops := setLoopsAdjust s.temp_program_loops inp.d }
  else if s.create_state = C_CREATE_SET_NAME then
    { s with temp_program_name := setNameAdjust s.temp_program_name inp.d }
  else s

/-- `MODE_CUSTOM_CREATE` branch of the super loop: classify the press first
(a long press cancels from any wizard state), otherwise rotate. -/
def tickCreate (s : State) (inp : Input) : State :=
  if inp.pressed = true then
    if inp.is_long = true then
      { s with main_state := MODE_CUSTOM_MENU, create_state := C_CREATE_START }
    else createConfirm s inp
  else if inp.d ≠ 0 then createRotate s inp
  else s

/-- The lid-open emergency stop (the state changes of lines 268-282). -/
def applySafety (s : State) : State :=
  { s with uv := 0, main_state := MODE_MAIN_MENU, simple_state := S_IDLE, c_start_ts := none }

/-- Whether the emergency-stop guard of the super loop fires. -/
def safetyFires (s : State) (inp : Input) : Prop :=
  inp.lid = true ∧
    ((s.main_state = MODE_SIMPLE ∧ s.simple_state = S_RUNNING) ∨
     (s.main_state = MODE_CUSTOM_MENU ∧ s.c_start_ts ≠ none))

instance (s : State) (inp : Input) : Decidable (safetyFires s inp) := by
  unfold safetyFires; infer_instance

/-- One iteration of the super loop: the safety check (with its `continue`)
strictly before the mode dispatch. -/
def tick (s : State) (inp : Input) : State :=
  if safetyFires s inp then applySafety s
  else if s.main_state = MODE_MAIN_MENU then tickMainMenu s inp
  else if s.main_state = MODE_SIMPLE then tickSimple s inp
  else if s.main_state = MODE_CUSTOM_MENU then tickCustomMenu s inp
  else if s.main_state = MODE_CUSTOM_CREATE then tickCreate s inp
  else s

/-- The state right after the start-up sequence (globals plus the initial
`load_programs_from_file` call).  Note the source initialises `load_state`
to `C_LOAD_SELECT` (= 0), not `-1`. -/
def initState (fc : FileContent) : State :=
  { main_state := MODE_MAIN_MENU, main_menu_idx := 0, simple_state := S_IDLE,
    custom_menu_idx := 0, create_state := C_CREATE_START, run_state := C_RUN_START,
    load_state := C_LOAD_SELECT, load_program_idx := 0,
    s_current_time_unit_idx := 0, s_set_value := 60, s_set_int := 50,
    s_run_duration_sec := 0, s_start_ts := none,
    saved_programs := load_programs_from_file fc,
    current_program := defaultProgram, temp_step := defaultStep,
    temp_program_name := "P-01", temp_program_loops := 1,
    c_run_duration_sec := 0, c_start_ts := none, c_run_current_step := 0, c_run_current_loop := 1,
    temp_add_another := true, uv := 0, file := fc, lastWrite := none }

/-- Run the super loop over a list of per-tick inputs. -/
def run (s : State) (inps : List Input) : State := List.foldl tick s inps

-- ------------------------------------------------------------------
-- The run-cursor walk (the step-advance logic of lines 454-479 in isolation)
-- ------------------------------------------------------------------

/-- Pure projection of the expiry branch of `runDrive` onto the cursor:
`none` means the program finished. -/
def advanceCursor (P : Program) (st lp : Int) : Option (Int × Int) :=
  let st' := st + 1
  if st' ≥ (P.steps.length : Int) then
    let lp' := lp + 1
    if lp' > P.loops then none else some (0, lp')
  else some (st', lp)

/-- The cursor after `k` step-expiries, starting from `(step 0, loop 1)`. -/
def cursorIter (P : Program) : Nat → Option (Int × Int)
  | 0 => some (0, 1)
  | k + 1 => (cursorIter P k).bind fun c => advanceCursor P c.1 c.2

def totalSteps (P : Program) : Nat := P.steps.length * P.loops.toNat

/-- Duration (seconds) and UV duty of the `k`-th step-execution of a full walk. -/
def runSchedule (P : Program) : List (Rat × Rat) :=
  (List.range (totalSteps P)).map fun k =>
    match cursorIter P k with
    | some c =>
      let st := P.steps.getD c.1.toNat defaultStep
      (get_duration_sec st, qdiv st.i 100)
    | none => (0, 0)

-- ------------------------------------------------------------------
-- Invariants and concrete input traces used by the theorems below
-- ------------------------------------------------------------------

/-- Strengthened UV invariant (inductive): a non-zero UV duty implies the
simple machine is mid-run in Simple mode, or a custom run cursor exists. -/
def UVInvStrong (s : State) : Prop :=
  s.uv ≠ 0 → ((s.main_state = MODE_SIMPLE ∧ s.simple_state = S_RUNNING) ∨ s.c_start_ts ≠ none)

/-- The claimed UV invariant: with no run active, the UV output is off. -/
def UVInvariant (s : State) : Prop :=
  (s.simple_state ≠ S_RUNNING ∧ s.c_start_ts = none) → s.uv = 0

/-- Input shorthand: short press (`is_long = false`), lid closed. -/
def pShort (t : Int) : Input := ⟨0, true, false, false, t, true⟩

/-- Input shorthand: long press (held ≥600ms), lid closed. -/
def pLong (t : Int) : Input := ⟨0, true, true, false, t, true⟩

/-- Input shorthand: one positive encoder detent, no press. -/
def rOnly (t : Int) : Input := ⟨1, false, false, false, t, true⟩

/-- Input shorthand: one positive encoder detent plus a short press. -/
def rPress (t : Int) : Input := ⟨1, true, false, false, t, true⟩

/-- Input shorthand: idle tick with the lid open. -/
def lidOpenIdle (t : Int) : Input := ⟨0, false, false, true, t, true⟩

/-- From boot (empty store): enter Custom Menu, leave the (initially active)
load sub-state with a long press, and author one step (60s at 50%) up to the
`AddStep?` prompt of the creation wizard. -/
def authorOneStep : List Input :=
  [ rPress 0,      -- main menu: rotate to "Custom Mode", press: enter Custom Menu
    pLong 30,      -- leave the boot-time load sub-state (load_state 0 -> -1)
    rPress 60,     -- rotate to "Create New", press: enter the creation wizard
    pShort 90,     -- Start -> SetTimeUnit
    pShort 120,    -- SetTimeUnit -> SetTime  (unit 0, value 60)
    pShort 150,    -- SetTime -> SetIntensity
    pShort 180 ]   -- SetIntensity: append step (0, 60, 50) -> AddStep?

/-- Continue from `authorOneStep`: author a second step (60s at 51%), finish
the wizard (1 loop, name "P-01"), save, and return to the Custom Menu. -/
def authorTwoStepsAndSave : List Input :=
  authorOneStep ++
  [ pShort 210,    -- AddStep? = Yes -> SetTimeUnit
    pShort 240,    -- SetTimeUnit -> SetTime  (unit 0, value 60)
    pShort 270,    -- SetTime -> SetIntensity
    rOnly 300,     -- intensity 50 -> 51
    pShort 330,    -- append step (0, 60, 51) -> AddStep?
    rOnly 360,     -- AddStep? toggle -> No
    pShort 390,    -- AddStep? = No -> SetLoops
    pShort 420,    -- SetLoops (1) -> SetName ("P-01")
    pShort 450,    -- SetName -> SavePrompt
    pShort 480,    -- SavePrompt: store/persist, back to Custom Menu
    rOnly 510 ]    -- rotate menu: "Load Program" -> "Create New"

/-- State with the two-step program saved and the Custom Menu on item 1. -/
def sReady : State := run (initState .missing) authorTwoStepsAndSave

/-- One more rotate-and-press starts the custom run (step 0: 60s at 50%). -/
def sRunning : State := tick sReady (rPress 1000)

/-- The failing tick: a qualifying long press held on the tick at which the
current step has also expired (61s elapsed of a 60s step). -/
def sBug : State := tick sRunning (pLong 62000)

/-- A lid-open tick taken from the post-bug state. -/
def sBugLid : State := tick sBug (lidOpenIdle 62030)

/-- From boot: enter Simple mode and click through to a 60s @ 50% run. -/
def simpleRunTrace : List Input := [pShort 0, pShort 30, pShort 60, pShort 90, pShort 120]

def sSimpleRun : State := run (initState .missing) simpleRunTrace

/-- Long press held on the tick at which the simple run has also expired. -/
def sSimpleBug : State := tick sSimpleRun (pLong 61500)

/-- From boot: author one step, then cancel the wizard with a long press. -/
def sPartial : State := run (initState .missing) authorOneStep

def sCancelled : State := tick sPartial (pLong 210)

/-- After the cancel: rotate to "Run Program" and press. -/
def sRunPartial : State := tick sCancelled (rPress 240)


-- ------------------------------------------------------------------
-- Generic lemmas about the embedding
-- ------------------------------------------------------------------

/-- A clamp `max lo (min hi x)` lands in `[lo, hi]` whenever `lo ≤ hi`. -/
theorem clampBounds (lo hi x : Int) (h : lo ≤ hi) :
    lo ≤ max lo (min hi x) ∧ max lo (min hi x) ≤ hi :=
  ⟨le_max_left _ _, max_le h (min_le_left _ _)⟩

/-- Formatting then re-parsing a program-number suffix is the identity on
the range the controller generates. -/
theorem parsePNum_fmtPNum (m : Nat) (hm : m < 100) :
    parsePNum (fmtPNum (m : Int)) = (m : Int) := by
  revert hm
  revert m
  decide

theorem parsePNum_fmtPNum_int (n : Int) (h1 : 1 ≤ n) (h2 : n ≤ 99) :
    parsePNum (fmtPNum n) = n := by
  have hn : n = ((n.toNat : Nat) : Int) := by omega
  rw [hn]
  exact parsePNum_fmtPNum n.toNat (by omega)

/-- The k-th step-execution of a full cursor walk is step `k % S` of loop
`k / S + 1` (the loop-major order of the source's advance logic). -/
theorem cursorIter_formula (P : Program) (hL : 1 ≤ P.loops) (hS : 1 ≤ P.steps.length) :
    ∀ k : Nat, k < totalSteps P →
      cursorIter P k = some (((k % P.steps.length : Nat) : Int), ((k / P.steps.length : Nat) : Int) + 1) := by
  intro k
  induction k with
  | zero => intro _; simp [cursorIter]
  | succ k ih =>
    intro hk1
    have hk : k < totalSteps P := Nat.lt_of_succ_lt hk1
    have hS0 : 0 < P.steps.length := hS
    have hr : k % P.steps.length < P.steps.length := Nat.mod_lt k hS0
    have hqr : P.steps.length * (k / P.steps.length) + k % P.steps.length = k :=
      Nat.div_add_mod k P.steps.length
    rw [cursorIter, ih hk, Option.some_bind]
    unfold advanceCursor
    by_cases hcase : k % P.steps.length + 1 < P.steps.length
    · have hcond : ¬(((k % P.steps.length : Nat) : Int) + 1 ≥ (P.steps.length : Int)) := by
        push_cast
        omega
      rw [if_neg hcond]
      have h1 : (k + 1) % P.steps.length = k % P.steps.length + 1 := by
        have hk1eq : k + 1 = (k % P.steps.length + 1) + P.steps.length * (k / P.steps.length) := by
          omega
        rw [hk1eq, Nat.add_mul_mod_self_left, Nat.mod_eq_of_lt hcase]
      have h2 : (k + 1) / P.steps.length = k / P.steps.length := by
        have hk1eq : k + 1 = (k % P.steps.length + 1) + P.steps.length * (k / P.steps.length) := by
          omega
        rw [hk1eq, Nat.add_mul_div_left _ _ hS0, Nat.div_eq_of_lt hcase]
        omega
      rw [h1, h2]
      push_cast
      ring_nf
    · have heq : k % P.steps.length + 1 = P.steps.length := by omega
      have hcond : (((k % P.steps.length : Nat) : Int) + 1 ≥ (P.steps.length : Int)) := by
        push_cast
        omega
      rw [if_pos hcond]
      have hmul : k + 1 = P.steps.length * (k / P.steps.length + 1) := by
        rw [Nat.mul_succ]
        omega
      have hlt : k / P.steps.length + 1 < P.loops.toNat := by
        have htot : k + 1 < P.steps.length * P.loops.toNat := hk1
        by_contra hge
        push_neg at hge
        have : P.steps.length * P.loops.toNat ≤ P.steps.length * (k / P.steps.length + 1) :=
          Nat.mul_le_mul_left _ hge
        rw [hmul] at htot
        exact absurd (lt_of_lt_of_le htot this) (lt_irrefl _)
      have hloopcond : ¬(((k / P.steps.length : Nat) : Int) + 1 + 1 > P.loops) := by
        have hL' : P.loops = ((P.loops.toNat : Nat) : Int) := by omega
        rw [hL']
        push_cast
        omega
      rw [if_neg hloopcond]
      have h1 : (k + 1) % P.steps.length = 0 := by
        rw [hmul, Nat.mul_mod_right]
      have h2 : (k + 1) / P.steps.length = k / P.steps.length + 1 := by
        rw [hmul, Nat.mul_div_cancel_left _ hS0]
      rw [h1, h2]
      push_cast
      ring_nf

/-- After exactly `S × L` step-expiries the cursor walk reports finished. -/
theorem cursorIter_finish (P : Program) (hL : 1 ≤ P.loops) (hS : 1 ≤ P.steps.length) :
    cursorIter P (totalSteps P) = none := by
  have hS0 : 0 < P.steps.length := hS
  have hLt : 1 ≤ P.loops.toNat := by omega
  have htot1 : 1 ≤ totalSteps P := Nat.mul_pos hS0 hLt
  obtain ⟨k, hk⟩ : ∃ k, totalSteps P = k + 1 := ⟨totalSteps P - 1, by omega⟩
  have hkval : k + 1 = P.steps.length * P.loops.toNat := by
    rw [← hk]; rfl
  have hmulpred : P.steps.length * P.loops.toNat
      = P.steps.length * (P.loops.toNat - 1) + P.steps.length := by
    have h : P.loops.toNat = (P.loops.toNat - 1) + 1 := by omega
    calc P.steps.length * P.loops.toNat
        = P.steps.length * ((P.loops.toNat - 1) + 1) := by rw [← h]
      _ = P.steps.length * (P.loops.toNat - 1) + P.steps.length := by rw [Nat.mul_succ]
  have hkeq : k = P.steps.length * (P.loops.toNat - 1) + (P.steps.length - 1) := by omega
  have h1 : k % P.steps.length = P.steps.length - 1 := by
    rw [hkeq, Nat.mul_add_mod, Nat.mod_eq_of_lt (by omega)]
  have h2 : k / P.steps.length = P.loops.toNat - 1 := by
    rw [hkeq, Nat.mul_add_div hS0, Nat.div_eq_of_lt (by omega)]
    omega
  have hklt : k < totalSteps P := by omega
  rw [hk, cursorIter, cursorIter_formula P hL hS k hklt, Option.some_bind]
  unfold advanceCursor
  rw [h1, h2]
  have hcond : (((P.steps.length - 1 : Nat) : Int) + 1 ≥ (P.steps.length : Int)) := by
    push_cast [Nat.cast_sub hS]
    omega
  rw [if_pos hcond]
  have hloopcond : (((P.loops.toNat - 1 : Nat) : Int) + 1 + 1 > P.loops) := by
    have hL' : P.loops = ((P.loops.toNat : Nat) : Int) := by omega
    rw [hL']
    omega
  rw [if_pos hloopcond]

-- Frame lemmas: which fields each handler leaves untouched.

theorem loadBlock_frame (s : State) (inp : Input) (p : Bool) :
    (loadBlock s inp p).main_state = s.main_state ∧
    (loadBlock s inp p).simple_state = s.simple_state ∧
    (loadBlock s inp p).uv = s.uv ∧
    (loadBlock s inp p).c_start_ts = s.c_start_ts ∧
    (loadBlock s inp p).saved_programs = s.saved_programs ∧
    (loadBlock s inp p).run_state = s.run_state ∧
    (loadBlock s inp p).c_run_duration_sec = s.c_run_duration_sec ∧
    (loadBlock s inp p).c_run_current_step = s.c_run_current_step ∧
    (loadBlock s inp p).c_run_current_loop = s.c_run_current_loop ∧
    (loadBlock s inp p).s_start_ts = s.s_start_ts := by
  simp only [loadBlock]
  split_ifs <;> simp

theorem tickMainMenu_frame (s : State) (inp : Input) :
    (tickMainMenu s inp).uv = s.uv ∧
    (tickMainMenu s inp).c_start_ts = s.c_start_ts ∧
    (tickMainMenu s inp).s_start_ts = s.s_start_ts ∧
    (tickMainMenu s inp).saved_programs = s.saved_programs ∧
    (tickMainMenu s inp).current_program = s.current_program := by
  simp only [tickMainMenu]
  split_ifs <;> simp

theorem tickSimple_frame (s : State) (inp : Input) :
    (tickSimple s inp).c_start_ts = s.c_start_ts ∧
    (tickSimple s inp).saved_programs = s.saved_programs ∧
    (tickSimple s inp).current_program = s.current_program ∧
    (tickSimple s inp).run_state = s.run_state := by
  simp only [tickSimple]
  split_ifs <;> simp

theorem runDrive_frame (s : State) (inp : Input) :
    (runDrive s inp).saved_programs = s.saved_programs ∧
    (runDrive s inp).current_program = s.current_program ∧
    (runDrive s inp).simple_state = s.simple_state ∧
    (runDrive s inp).s_start_ts = s.s_start_ts ∧
    (runDrive s inp).load_state = s.load_state := by
  simp only [runDrive]
  split_ifs <;> simp

theorem runDoneAck_frame (s : State) (inp : Input) :
    (runDoneAck s inp).saved_programs = s.saved_programs ∧
    (runDoneAck s inp).uv = s.uv ∧
    (runDoneAck s inp).c_start_ts = s.c_start_ts ∧
    (runDoneAck s inp).simple_state = s.simple_state ∧
    (runDoneAck s inp).current_program = s.current_program ∧
    (runDoneAck s inp).load_state = s.load_state := by
  simp only [runDoneAck]
  split_ifs <;> simp

theorem customNav_frame (s : State) (inp : Input) :
    (customNav s inp).saved_programs = s.saved_programs ∧
    (customNav s inp).simple_state = s.simple_state ∧
    (customNav s inp).s_start_ts = s.s_start_ts := by
  simp only [customNav]
  split_ifs <;> simp

theorem createConfirm_frame (s : State) (inp : Input) :
    (createConfirm s inp).uv = s.uv ∧
    (createConfirm s inp).c_start_ts = s.c_start_ts ∧
    (createConfirm s inp).s_start_ts = s.s_start_ts ∧
    (createConfirm s inp).simple_state = s.simple_state := by
  simp only [createConfirm]
  split_ifs <;> exact ⟨rfl, rfl, rfl, rfl⟩

theorem createRotate_frame (s : State) (inp : Input) :
    (createRotate s inp).uv = s.uv ∧
    (createRotate s inp).c_start_ts = s.c_start_ts ∧
    (createRotate s inp).s_start_ts = s.s_start_ts ∧
    (createRotate s inp).simple_state = s.simple_state ∧
    (createRotate s inp).saved_programs = s.saved_programs ∧
    (createRotate s inp).current_program = s.current_program ∧
    (createRotate s inp).main_state = s.main_state := by
  simp only [createRotate]
  split_ifs <;> exact ⟨rfl, rfl, rfl, rfl, rfl, rfl, rfl⟩

theorem tickCreate_frame (s : State) (inp : Input) :
    (tickCreate s inp).uv = s.uv ∧
    (tickCreate s inp).c_start_ts = s.c_start_ts ∧
    (tickCreate s inp).s_start_ts = s.s_start_ts ∧
    (tickCreate s inp).simple_state = s.simple_state := by
  simp only [tickCreate]
  split_ifs
  · exact ⟨rfl, rfl, rfl, rfl⟩
  · exact createConfirm_frame s inp
  · obtain ⟨h1, h2, h3, h4, _⟩ := createRotate_frame s inp
    exact ⟨h1, h2, h3, h4⟩
  · exact ⟨rfl, rfl, rfl, rfl⟩

theorem createConfirm_store (s : State) (inp : Input)
    (h : s.create_state ≠ C_CREATE_SAVE_PROG) :
    (createConfirm s inp).saved_programs = s.saved_programs := by
  simp only [createConfirm]
  split_ifs <;> rfl

theorem tickCreate_store (s : State) (inp : Input)
    (h : ¬(inp.pressed = true ∧ inp.is_long = false ∧ s.create_state = C_CREATE_SAVE_PROG)) :
    (tickCreate s inp).saved_programs = s.saved_programs := by
  simp only [tickCreate]
  split_ifs with hp hl
  · rfl
  · exact createConfirm_store s inp (fun hc => h ⟨hp, by simpa using hl, hc⟩)
  · exact (createRotate_frame s inp).2.2.2.2.1
  · rfl

/-- Full reduction of the tick taken on the `SavePrompt` confirm. -/
theorem tick_save_branch (s : State) (inp : Input)
    (hm : s.main_state = MODE_CUSTOM_CREATE) (hc : s.create_state = C_CREATE_SAVE_PROG)
    (hp : inp.pressed = true) (hl : inp.is_long = false) :
    tick s inp =
      { s with
        saved_programs := saveProgram s.saved_programs s.current_program,
        lastWrite := some (saveProgram s.saved_programs s.current_program),
        file := if inp.saveOk = true then FileContent.good (saveProgram s.saved_programs s.current_program) else s.file,
        main_state := MODE_CUSTOM_MENU, custom_menu_idx := 0 } := by
  simp [tick, tickCreate, createConfirm, safetyFires, hm, hc, hp, hl,
    MODE_MAIN_MENU, MODE_SIMPLE, MODE_CUSTOM_MENU, MODE_CUSTOM_CREATE,
    C_CREATE_START, C_CREATE_SET_TIME_UNIT, C_CREATE_SET_TIME, C_CREATE_SET_INTENS,
    C_CREATE_ADD_STEP, C_CREATE_SET_LOOPS, C_CREATE_SET_NAME, C_CREATE_SAVE_PROG]

/-- Full reduction of the tick taken on a creation-wizard long press. -/
theorem tick_create_longpress (s : State) (inp : Input)
    (hm : s.main_state = MODE_CUSTOM_CREATE) (hp : inp.pressed = true) (hl : inp.is_long = true) :
    tick s inp = { s with main_state := MODE_CUSTOM_MENU, create_state := C_CREATE_START } := by
  simp [tick, tickCreate, safetyFires, hm, hp, hl,
    MODE_MAIN_MENU, MODE_SIMPLE, MODE_CUSTOM_MENU, MODE_CUSTOM_CREATE]



/-- On a no-press tick with the current step expired, the run drive advances
exactly as `advanceCursor` says: finish (UV off, cursor destroyed, RunDone) or
start the next step (new duty, new duration, new start timestamp) without
destroying the cursor. -/
theorem runDrive_expiry (s : State) (inp : Input) (t : Int)
    (hts : s.c_start_ts = some t) (hnp : inp.pressed = false)
    (hexp : s.c_run_duration_sec ≤ ((inp.now - t : Int) : Rat) / 1000) :
    (advanceCursor s.current_program s.c_run_current_step s.c_run_current_loop = none →
      runDrive s inp =
        { s with
          c_run_current_step := 0, c_run_current_loop := s.c_run_current_loop + 1,
          uv := 0, c_start_ts := none, run_state := C_RUN_DONE }) ∧
    (∀ c : Int × Int,
      advanceCursor s.current_program s.c_run_current_step s.c_run_current_loop = some c →
      runDrive s inp =
        { s with
          c_run_current_step := c.1, c_run_current_loop := c.2,
          uv := qdiv (s.current_program.steps.getD c.1.toNat defaultStep).i 100,
          c_run_duration_sec := get_duration_sec (s.current_program.steps.getD c.1.toNat defaultStep),
          c_start_ts := some inp.now }) := by
  have hrem : qmax0 (qsub s.c_run_duration_sec (qdiv (inp.now - s.c_start_ts.getD 0) 1000)) ≤ 0 := by
    rw [hts]
    simp only [Option.getD_some]
    rw [qmax0_eq, qsub_eq, qdiv_eq]
    apply max_le (le_refl 0)
    rw [sub_nonpos]
    exact_mod_cast hexp
  constructor
  · intro h
    simp only [runDrive, hnp, Bool.false_eq_true, false_and, if_false, if_pos hrem]
    simp only [advanceCursor] at h
    split_ifs at h ⊢
    all_goals simp_all
  · intro c hc
    simp only [runDrive, hnp, Bool.false_eq_true, false_and, if_false, if_pos hrem]
    simp only [advanceCursor] at hc
    split_ifs at hc ⊢ <;> simp_all <;> (subst hc; simp)



theorem tick_custom_menu (s : State) (inp : Input)
    (hm : s.main_state = MODE_CUSTOM_MENU) (hlid : inp.lid = false) (hts : s.c_start_ts ≠ none) :
    tick s inp =
      (if (runDrive s inp).load_state ≠ -1
       then loadBlock (runDrive s inp) inp (inp.pressed && true)
       else runDrive s inp) := by
  simp [tick, tickCustomMenu, safetyFires, hm, hlid, hts,
    MODE_MAIN_MENU, MODE_SIMPLE, MODE_CUSTOM_MENU, MODE_CUSTOM_CREATE]

theorem tick_load_confirm (s : State) (inp : Input)
    (hm : s.main_state = MODE_CUSTOM_MENU) (hts : s.c_start_ts = none)
    (hrs : s.run_state ≠ C_RUN_DONE) (hls : s.load_state = C_LOAD_SELECT)
    (hp : inp.pressed = true) (hl : inp.is_long = false) (hd : inp.d = 0)
    (hne : s.saved_programs ≠ []) :
    tick s inp =
      { s with
        current_program := s.saved_programs.getD s.load_program_idx.toNat defaultProgram,
        load_state := -1 } := by
  rw [C_RUN_DONE] at hrs
  rw [C_LOAD_SELECT] at hls
  simp [tick, tickCustomMenu, loadBlock, safetyFires, hm, hts, hrs, hls, hp, hl, hd, hne,
    MODE_MAIN_MENU, MODE_SIMPLE, MODE_CUSTOM_MENU, MODE_CUSTOM_CREATE,
    C_RUN_DONE, C_LOAD_SELECT]

theorem tick_run_select (s : State) (inp : Input)
    (hm : s.main_state = MODE_CUSTOM_MENU) (hts : s.c_start_ts = none)
    (hrs : s.run_state ≠ C_RUN_DONE) (hls : s.load_state = -1)
    (hidx : s.custom_menu_idx = C_MENU_RUN)
    (hp : inp.pressed = true) (hl : inp.is_long = false) (hlid : inp.lid = false)
    (hd : inp.d = 0) (hsteps : s.current_program.steps ≠ []) :
    tick s inp =
      { s with
        run_state := C_RUN_START, c_run_current_step := 0, c_run_current_loop := 1,
        uv := qdiv (s.current_program.steps.getD 0 defaultStep).i 100,
        c_run_duration_sec := get_duration_sec (s.current_program.steps.getD 0 defaultStep),
        c_start_ts := some inp.now } := by
  rw [C_RUN_DONE] at hrs
  rw [C_MENU_RUN] at hidx
  simp [tick, tickCustomMenu, customNav, safetyFires, hm, hts, hrs, hls, hidx, hp, hl, hlid, hd, hsteps,
    MODE_MAIN_MENU, MODE_SIMPLE, MODE_CUSTOM_MENU, MODE_CUSTOM_CREATE,
    C_MENU_LOAD, C_MENU_CREATE, C_MENU_RUN, C_RUN_START, C_RUN_DONE, C_LOAD_SELECT]


-- UV-invariant preservation, handler by handler.

theorem inv_of_frame (s s' : State) (hM : s.main_state ≠ MODE_SIMPLE)
    (huv : s'.uv = s.uv) (hcts : s'.c_start_ts = s.c_start_ts)
    (h : UVInvStrong s) : UVInvStrong s' := by
  intro hu
  right
  rw [hcts]
  rcases h (by rwa [huv] at hu) with ⟨h1, _⟩ | h3
  · exact absurd h1 hM
  · exact h3

theorem inv_of_frame4 (s s' : State)
    (hmain : s'.main_state = s.main_state) (hsimple : s'.simple_state = s.simple_state)
    (huv : s'.uv = s.uv) (hcts : s'.c_start_ts = s.c_start_ts)
    (h : UVInvStrong s) : UVInvStrong s' := by
  intro hu
  rw [hmain, hsimple, hcts]
  exact h (by rwa [huv] at hu)

theorem tickSimple_inv (s : State) (inp : Input)
    (hm : s.main_state = MODE_SIMPLE) (h : UVInvStrong s) : UVInvStrong (tickSimple s inp) := by
  unfold UVInvStrong at h ⊢
  simp only [tickSimple]
  split_ifs <;> intro huv <;>
    (simp_all [S_IDLE, S_SET_TIME_UNIT, S_SET_TIME, S_SET_INTENS, S_RUNNING, S_DONE,
      MODE_MAIN_MENU, MODE_SIMPLE])

theorem runDrive_inv (s : State) (inp : Input)
    (hcts : s.c_start_ts ≠ none) : UVInvStrong (runDrive s inp) := by
  unfold UVInvStrong
  simp only [runDrive]
  split_ifs <;> intro huv <;> simp_all

theorem customNav_inv (s : State) (inp : Input)
    (hm : s.main_state = MODE_CUSTOM_MENU) (h : UVInvStrong s) : UVInvStrong (customNav s inp) := by
  unfold UVInvStrong at h ⊢
  simp only [customNav]
  split_ifs <;> intro huv <;>
    (simp_all [C_MENU_LOAD, C_MENU_CREATE, C_MENU_RUN, MODE_MAIN_MENU, MODE_SIMPLE,
      MODE_CUSTOM_MENU, MODE_CUSTOM_CREATE])

theorem tickCustomMenu_inv (s : State) (inp : Input)
    (hm : s.main_state = MODE_CUSTOM_MENU) (h : UVInvStrong s) : UVInvStrong (tickCustomMenu s inp) := by
  unfold tickCustomMenu
  have hload : ∀ (x : State) (p : Bool), UVInvStrong x →
      UVInvStrong (if x.load_state ≠ -1 then loadBlock x inp p else x) := by
    intro x p hx
    split_ifs
    · obtain ⟨h1, h2, h3, h4, _⟩ := loadBlock_frame x inp p
      exact inv_of_frame4 x _ h1 h2 h3 h4 hx
    · exact hx
  by_cases hts : s.c_start_ts ≠ none
  · rw [if_pos hts]
    exact hload _ _ (runDrive_inv s inp hts)
  · rw [if_neg hts]
    by_cases hrd : s.run_state = C_RUN_DONE
    · rw [if_pos hrd]
      refine hload _ _ ?_
      obtain ⟨_, h2, h3, h4, _, _⟩ := runDoneAck_frame s inp
      exact inv_of_frame s _ (by rw [hm]; decide) h2 h3 h
    · rw [if_neg hrd]
      by_cases hls : s.load_state = -1
      · rw [if_pos hls]
        exact hload _ _ (customNav_inv s inp hm h)
      · rw [if_neg hls]
        exact hload _ _ h

theorem tick_inv (s : State) (inp : Input) (h : UVInvStrong s) : UVInvStrong (tick s inp) := by
  unfold tick
  split_ifs with hsf hm0 hm1 hm2 hm3
  · intro hu
    exact absurd rfl hu
  · obtain ⟨h1, h2, _⟩ := tickMainMenu_frame s inp
    exact inv_of_frame s _ (by rw [hm0]; decide) h1 h2 h
  · exact tickSimple_inv s inp hm1 h
  · exact tickCustomMenu_inv s inp hm2 h
  · obtain ⟨h1, h2, _⟩ := tickCreate_frame s inp
    exact inv_of_frame s _ (by rw [hm3]; decide) h1 h2 h
  · exact h



theorem findNameIdxAux_absent (nm : String) (l : List Program)
    (h : ∀ q ∈ l, q.name ≠ nm) : findNameIdxAux nm l = -1 := by
  induction l with
  | nil => rfl
  | cons p rest ih =>
    simp only [findNameIdxAux]
    rw [if_neg (h p (by simp))]
    rw [ih (fun q hq => h q (by simp [hq]))]
    simp

theorem findNameIdxAux_first (nm : String) (l : List Program) (i : Nat)
    (hi : i < l.length)
    (hname : (l.getD i defaultProgram).name = nm)
    (hfirst : ∀ j : Nat, j < i → (l.getD j defaultProgram).name ≠ nm) :
    findNameIdxAux nm l = (i : Int) := by
  induction l generalizing i with
  | nil => simp at hi
  | cons p rest ih =>
    cases i with
    | zero =>
      simp only [List.getD_cons_zero] at hname
      simp only [findNameIdxAux]
      rw [if_pos hname]
      simp
    | succ j =>
      have hp : p.name ≠ nm := by
        have h0 := hfirst 0 (Nat.succ_pos j)
        simpa using h0
      simp only [findNameIdxAux]
      rw [if_neg hp]
      have hr := ih j (by simpa using hi) (by simpa using hname)
        (fun k hk => by simpa using hfirst (k + 1) (by omega))
      rw [hr]
      have hne : ((j : Nat) : Int) ≠ -1 := by omega
      rw [if_neg hne]
      push_cast
      ring

theorem saveProgram_absent (store : List Program) (prog : Program)
    (h : ∀ q ∈ store, q.name ≠ prog.name) :
    saveProgram store prog = store ++ [prog] := by
  unfold saveProgram findNameIdx
  rw [findNameIdxAux_absent prog.name store h]
  simp

theorem saveProgram_present (store : List Program) (prog : Program) (i : Nat)
    (hi : i < store.length)
    (hname : (store.getD i defaultProgram).name = prog.name)
    (hfirst : ∀ j : Nat, j < i → (store.getD j defaultProgram).name ≠ prog.name) :
    saveProgram store prog = store.set i prog := by
  unfold saveProgram findNameIdx
  rw [findNameIdxAux_first prog.name store i hi hname hfirst]
  have hne : ((i : Nat) : Int) ≠ -1 := by omega
  rw [if_pos hne]
  simp

-- ------------------------------------------------------------------
-- Claim theorems
-- ------------------------------------------------------------------

/-- C1 (code bug): evaluation of the super loop at a reachable failing input.
After authoring and saving a two-step program, starting it, and holding a
qualifying long press on the tick at which the current step expires, the
controller reaches a state in which the top-level mode is Main Menu while a
custom run cursor still exists and the UV output is on.  A lid-open tick taken
from that state does NOT trigger the safety rule: the tick ends with the UV
output still on and the run cursor still present, contradicting the claim
that every lid-open tick with a live cursor ends with UV off, cursor absent
and processing skipped. -/
theorem c1_lid_open_misses_live_cursor :
    sBug.c_start_ts = some 62000 ∧
    sBug.main_state = MODE_MAIN_MENU ∧
    sBug.uv ≠ 0 ∧
    sBugLid.uv = qdiv 51 100 ∧
    sBugLid.uv ≠ 0 ∧
    sBugLid.c_start_ts = some 62000 := by decide

/-- C3 (code bug): the same failing tick in detail.  On the tick `sRunning →
sBug` a qualifying long press is registered while the custom run cursor
exists, and the current step's remaining time has also reached 0.  The cancel
branch runs first (UV off, cursor destroyed, mode → Main Menu), but the
step-expiry branch is a second `if`, not an `elif`: it runs afterwards and
restarts the next step, so the tick ends with the UV output back on and the
run cursor re-created — not with the run cancelled as the claim requires.
The same slip in Simple mode makes a cancel-at-expiry tick end in the Done
sub-state (with a spurious completion signal) instead of Idle. -/
theorem c3_long_press_cancel_overridden_by_expiry :
    sRunning.c_start_ts = some 1000 ∧
    sRunning.main_state = MODE_CUSTOM_MENU ∧
    sBug.main_state = MODE_MAIN_MENU ∧
    sBug.simple_state = S_IDLE ∧
    sBug.c_start_ts = some 62000 ∧
    sBug.uv = qdiv 51 100 ∧
    sBug.uv ≠ 0 ∧
    sSimpleRun.main_state = MODE_SIMPLE ∧
    sSimpleRun.simple_state = S_RUNNING ∧
    sSimpleBug.main_state = MODE_MAIN_MENU ∧
    sSimpleBug.simple_state = S_DONE ∧
    sSimpleBug.simple_state ≠ S_IDLE := by decide

/-- C2: a full custom-run walk with no cancellation and no lid interrupt
executes exactly `loop_count × steps.length` step-executions, in loop-major
order `(loop k/S+1, step k%S)`, reaching the finished state (UV off, cursor
destroyed, RunDone) on the last expiry; and each mid-run expiry tick starts
the next step with new duty, duration and start timestamp without destroying
the cursor. -/
theorem c2_custom_run_walk (P : Program)
    (hL : 1 ≤ P.loops) (_hL99 : P.loops ≤ 99) (hS : 1 ≤ P.steps.length) :
    (∀ k : Nat, k < totalSteps P →
       cursorIter P k = some (((k % P.steps.length : Nat) : Int), ((k / P.steps.length : Nat) : Int) + 1)) ∧
    cursorIter P (totalSteps P) = none ∧
    (∀ (s : State) (inp : Input) (t : Int),
       s.main_state = MODE_CUSTOM_MENU → s.current_program = P → s.c_start_ts = some t →
       inp.pressed = false → inp.lid = false →
       s.c_run_duration_sec ≤ ((inp.now - t : Int) : Rat) / 1000 →
       ((advanceCursor P s.c_run_current_step s.c_run_current_loop = none →
           (tick s inp).uv = 0 ∧ (tick s inp).c_start_ts = none ∧
           (tick s inp).run_state = C_RUN_DONE) ∧
        (∀ c : Int × Int, advanceCursor P s.c_run_current_step s.c_run_current_loop = some c →
           (tick s inp).c_run_current_step = c.1 ∧ (tick s inp).c_run_current_loop = c.2 ∧
           (tick s inp).c_start_ts = some inp.now ∧
           (tick s inp).uv = qdiv (P.steps.getD c.1.toNat defaultStep).i 100 ∧
           (tick s inp).c_run_duration_sec = get_duration_sec (P.steps.getD c.1.toNat defaultStep)))) := by
  refine ⟨cursorIter_formula P hL hS, cursorIter_finish P hL hS, ?_⟩
  intro s inp t hm hcp hts hnp hlid hexp
  have hts' : s.c_start_ts ≠ none := by rw [hts]; simp
  have htick := tick_custom_menu s inp hm hlid hts'
  have hfields : (tick s inp).uv = (runDrive s inp).uv ∧
      (tick s inp).c_start_ts = (runDrive s inp).c_start_ts ∧
      (tick s inp).run_state = (runDrive s inp).run_state ∧
      (tick s inp).c_run_current_step = (runDrive s inp).c_run_current_step ∧
      (tick s inp).c_run_current_loop = (runDrive s inp).c_run_current_loop ∧
      (tick s inp).c_run_duration_sec = (runDrive s inp).c_run_duration_sec := by
    rw [htick]
    split_ifs
    · obtain ⟨_, _, h3, h4, _, h6, h7, h8, h9, _⟩ :=
        loadBlock_frame (runDrive s inp) inp (inp.pressed && true)
      exact ⟨h3, h4, h6, h8, h9, h7⟩
    · exact ⟨rfl, rfl, rfl, rfl, rfl, rfl⟩
  have hdrive := runDrive_expiry s inp t hts hnp hexp
  rw [hcp] at hdrive
  obtain ⟨huv, hcts, hrs, hstep, hloop, hdur⟩ := hfields
  constructor
  · intro hadv
    have hR := hdrive.1 hadv
    rw [huv, hcts, hrs, hR]
    exact ⟨rfl, rfl, rfl⟩
  · intro c hadv
    have hR := hdrive.2 c hadv
    rw [hstep, hloop, hcts, huv, hdur, hR]
    exact ⟨rfl, rfl, rfl, rfl, rfl⟩

def wProg : Program := ⟨"w", 2, [⟨0, 1, 10⟩, ⟨0, 2, 20⟩, ⟨0, 3, 30⟩]⟩

def wRunS : State :=
  { initState .missing with
    main_state := MODE_CUSTOM_MENU, current_program := wProg, load_state := -1,
    c_start_ts := some 0, c_run_duration_sec := qdiv 1 1,
    c_run_current_step := 0, c_run_current_loop := 1 }

def wRunI : Input := ⟨0, false, false, false, 5000, true⟩

theorem c2_custom_run_walk_witness :
    cursorIter wProg 4 = some (1, 2) ∧
    cursorIter wProg 6 = none ∧
    (tick wRunS wRunI).c_start_ts = some 5000 ∧
    (tick wRunS wRunI).uv = qdiv 20 100 := by
  have hw := c2_custom_run_walk wProg (by decide) (by decide) (by decide)
  refine ⟨?_, ?_, ?_, ?_⟩
  · have h := hw.1 4 (by decide)
    simpa using h
  · exact hw.2.1
  · have h := (hw.2.2 wRunS wRunI 0 rfl rfl rfl rfl rfl
      (by show qdiv 1 1 ≤ ((5000 - 0 : Int) : Rat) / 1000
          rw [qdiv_eq]
          norm_num)).2
      (1, 1) (by decide)
    exact h.2.2.1
  · have h := (hw.2.2 wRunS wRunI 0 rfl rfl rfl rfl rfl
      (by show qdiv 1 1 ≤ ((5000 - 0 : Int) : Rat) / 1000
          rw [qdiv_eq]
          norm_num)).2
      (1, 1) (by decide)
    exact h.2.2.2.1

/-- C4: UV-output invariant over all reachable end-of-tick states: starting
from boot, after any sequence of ticks, if Simple mode is not in the Running
sub-state and no custom run cursor exists, the UV output is off. -/
theorem c4_uv_off_when_no_run :
    ∀ (fc : FileContent) (inps : List Input), UVInvariant (run (initState fc) inps) := by
  intro fc inps
  have hall : ∀ (l : List Input) (s : State), UVInvStrong s → UVInvStrong (run s l) := by
    intro l
    induction l with
    | nil => intro s hs; exact hs
    | cons i rest ih =>
      intro s hs
      exact ih (tick s i) (tick_inv s i hs)
  have hstrong : UVInvStrong (run (initState fc) inps) := by
    apply hall
    intro hu
    exact absurd rfl hu
  intro hid
  obtain ⟨hns, hcts⟩ := hid
  by_contra huv
  rcases hstrong huv with ⟨_, hrun⟩ | hc
  · exact hns hrun
  · exact hc hcts

theorem c4_uv_off_when_no_run_witness :
    ((run (initState .missing) []).simple_state ≠ S_RUNNING ∧
      (run (initState .missing) []).c_start_ts = none) ∧
    (run (initState .missing) []).uv = 0 :=
  ⟨⟨by decide, rfl⟩, c4_uv_off_when_no_run .missing [] ⟨by decide, rfl⟩⟩

/-- C5: saving a program whose name matches a stored entry replaces the first
such entry in place (length unchanged, all other positions untouched); a
fresh name is appended (length + 1); and on the SavePrompt confirm the tick
commits `saveProgram` to the in-memory store and issues a write of the whole
new store. -/
theorem c5_save_replace_or_append :
    (∀ (store : List Program) (prog : Program),
       (∀ q ∈ store, q.name ≠ prog.name) →
       saveProgram store prog = store ++ [prog] ∧
       (saveProgram store prog).length = store.length + 1) ∧
    (∀ (store : List Program) (prog : Program) (i : Nat),
       i < store.length →
       (store.getD i defaultProgram).name = prog.name →
       (∀ j : Nat, j < i → (store.getD j defaultProgram).name ≠ prog.name) →
       (saveProgram store prog).length = store.length ∧
       (saveProgram store prog)[i]? = some prog ∧
       (∀ j : Nat, j ≠ i → (saveProgram store prog)[j]? = store[j]?)) ∧
    (∀ (s : State) (inp : Input),
       s.main_state = MODE_CUSTOM_CREATE → s.create_state = C_CREATE_SAVE_PROG →
       inp.pressed = true → inp.is_long = false →
       (tick s inp).saved_programs = saveProgram s.saved_programs s.current_program ∧
       (tick s inp).lastWrite = some (saveProgram s.saved_programs s.current_program)) := by
  refine ⟨?_, ?_, ?_⟩
  · intro store prog h
    refine ⟨saveProgram_absent store prog h, ?_⟩
    rw [saveProgram_absent store prog h]
    simp
  · intro store prog i hi hname hfirst
    rw [saveProgram_present store prog i hi hname hfirst]
    refine ⟨by simp, ?_, ?_⟩
    · exact List.getElem?_set_self hi
    · intro j hj
      exact List.getElem?_set_ne (fun h => hj h.symm)
  · intro s inp hm hc hp hl
    rw [tick_save_branch s inp hm hc hp hl]
    exact ⟨rfl, rfl⟩

def wProgA : Program := ⟨"A", 1, [⟨0, 5, 50⟩]⟩
def wProgA2 : Program := ⟨"A", 2, [⟨0, 9, 90⟩]⟩
def wProgB : Program := ⟨"B", 1, []⟩

theorem c5_save_replace_or_append_witness :
    saveProgram [wProgA] wProgB = [wProgA, wProgB] ∧
    (saveProgram [wProgA, wProgB] wProgA2).length = 2 ∧
    (saveProgram [wProgA, wProgB] wProgA2)[0]? = some wProgA2 ∧
    (saveProgram [wProgA, wProgB] wProgA2)[1]? = [wProgA, wProgB][1]? := by
  have h1 := (c5_save_replace_or_append.1 [wProgA] wProgB (by decide)).1
  have h2 := c5_save_replace_or_append.2.1 [wProgA, wProgB] wProgA2 0 (by decide) (by decide)
    (fun j hj => absurd hj (by omega))
  exact ⟨h1, h2.1, h2.2.1, h2.2.2 1 (by omega)⟩

/-- C6: the value editors clamp into their ranges for every single rotation
regardless of delta sign or magnitude — SetTime into the selected unit's
`[min,max]`, SetIntensity into `[0,100]`, SetLoops into `[1,99]`, the SetName
numeric suffix into `[1,99]` — while the index-style selectors (time unit,
menus, load list) wrap around modulo their length. -/
theorem c6_editors_clamp_selectors_wrap :
    (∀ v d : Int, 1 ≤ setTimeAdjust 0 v d ∧ setTimeAdjust 0 v d ≤ 3600) ∧
    (∀ v d : Int, 1 ≤ setTimeAdjust 1 v d ∧ setTimeAdjust 1 v d ≤ 1440) ∧
    (∀ v d : Int, 100 ≤ setTimeAdjust 2 v d ∧ setTimeAdjust 2 v d ≤ 60000) ∧
    (∀ v d : Int, 0 ≤ setIntensAdjust v d ∧ setIntensAdjust v d ≤ 100) ∧
    (∀ n d : Int, 1 ≤ setLoopsAdjust n d ∧ setLoopsAdjust n d ≤ 99) ∧
    (∀ (name : String) (d : Int),
       1 ≤ parsePNum (setNameAdjust name d) ∧ parsePNum (setNameAdjust name d) ≤ 99) ∧
    (∀ i d n : Int, 0 < n → 0 ≤ rotIdx i d n ∧ rotIdx i d n < n) ∧
    (∀ n : Int, 0 < n → rotIdx (n - 1) 1 n = 0 ∧ rotIdx 0 (-1) n = n - 1) ∧
    (∀ i : Int, 0 ≤ (i + 1) % 2 ∧ (i + 1) % 2 < 2) ∧ ((1 : Int) + 1) % 2 = 0 := by
  refine ⟨fun v d => ?_, fun v d => ?_, fun v d => ?_, fun v d => ?_, fun n d => ?_,
    fun name d => ?_, fun i d n hn => ?_, fun n hn => ?_, fun i => ?_, by decide⟩
  · exact clampBounds 1 3600 _ (by norm_num)
  · exact clampBounds 1 1440 _ (by norm_num)
  · exact clampBounds 100 60000 _ (by norm_num)
  · exact clampBounds 0 100 _ (by norm_num)
  · exact clampBounds 1 99 _ (by norm_num)
  · have hb := clampBounds 1 99 (parsePNum name + sgn d) (by norm_num)
    rw [setNameAdjust, parsePNum_fmtPNum_int _ hb.1 hb.2]
    exact hb
  · exact ⟨Int.emod_nonneg _ (by omega), Int.emod_lt_of_pos _ hn⟩
  · constructor
    · have h1 : rotIdx (n - 1) 1 n = (n - 1 + 1) % n := by simp [rotIdx, sgn]
      rw [h1, show (n - 1 + 1 : Int) = n by ring, Int.emod_self]
    · have h1 : rotIdx 0 (-1) n = (-1) % n := by norm_num [rotIdx, sgn]
      rw [h1]
      have h2 : (-1 : Int) % n = (n - 1) % n := by
        conv_rhs => rw [show (n - 1 : Int) = -1 + n * 1 by ring]
        rw [Int.add_mul_emod_self_left]
      rw [h2, Int.emod_eq_of_lt (by omega) (by omega)]
  · exact ⟨Int.emod_nonneg _ (by norm_num), Int.emod_lt_of_pos _ (by norm_num)⟩

theorem c6_editors_clamp_selectors_wrap_witness :
    (1 ≤ setTimeAdjust 0 (-50) (-3) ∧ setTimeAdjust 0 (-50) (-3) ≤ 3600) ∧
    (0 ≤ setIntensAdjust 100 7 ∧ setIntensAdjust 100 7 ≤ 100) ∧
    (1 ≤ parsePNum (setNameAdjust "P-99" 5) ∧ parsePNum (setNameAdjust "P-99" 5) ≤ 99) ∧
    (0 ≤ rotIdx 2 1 3 ∧ rotIdx 2 1 3 < 3) ∧
    rotIdx 2 1 3 = 0 ∧ rotIdx 0 (-1) 3 = 2 :=
  ⟨c6_editors_clamp_selectors_wrap.1 (-50) (-3),
   c6_editors_clamp_selectors_wrap.2.2.2.1 100 7,
   c6_editors_clamp_selectors_wrap.2.2.2.2.2.1 "P-99" 5,
   c6_editors_clamp_selectors_wrap.2.2.2.2.2.2.1 2 1 3 (by norm_num),
   (c6_editors_clamp_selectors_wrap.2.2.2.2.2.2.2.1 3 (by norm_num)).1,
   by
     have h := (c6_editors_clamp_selectors_wrap.2.2.2.2.2.2.2.1 3 (by norm_num)).2
     norm_num at h
     exact h⟩

/-- C7: the unit conversion — unit 0 gives the value in seconds, unit 1
multiplies by 60, unit 2 divides by 1000 (both for `get_duration_sec` and the
inline Simple-mode conversion) — and the concrete scenario: the program with
steps [(unit 0, 10, 30%), (unit 2, 500, 90%)] and 2 loops runs the durations
[10, 0.5, 10, 0.5] seconds at duties [0.30, 0.90, 0.30, 0.90] and finishes
after the fourth step-expiry. -/
theorem c7_unit_conversion_and_scenario :
    (∀ v i : Int, get_duration_sec ⟨0, v, i⟩ = (v : Rat)) ∧
    (∀ v i : Int, get_duration_sec ⟨1, v, i⟩ = (v : Rat) * 60) ∧
    (∀ v i : Int, get_duration_sec ⟨2, v, i⟩ = (v : Rat) / 1000) ∧
    (∀ (v : Int) (old : Rat),
       simple_duration 0 v old = (v : Rat) ∧
       simple_duration 1 v old = (v : Rat) * 60 ∧
       simple_duration 2 v old = (v : Rat) / 1000) ∧
    runSchedule ⟨"X", 2, [⟨0, 10, 30⟩, ⟨2, 500, 90⟩]⟩ =
      [((10 : Rat), (30 : Rat) / 100), ((500 : Rat) / 1000, (90 : Rat) / 100),
       ((10 : Rat), (30 : Rat) / 100), ((500 : Rat) / 1000, (90 : Rat) / 100)] ∧
    ((500 : Rat) / 1000 = 1 / 2 ∧ (30 : Rat) / 100 = 3 / 10 ∧ (90 : Rat) / 100 = 9 / 10) ∧
    (∀ k : Nat, k < 4 → (cursorIter ⟨"X", 2, [⟨0, 10, 30⟩, ⟨2, 500, 90⟩]⟩ k).isSome = true) ∧
    cursorIter ⟨"X", 2, [⟨0, 10, 30⟩, ⟨2, 500, 90⟩]⟩ 4 = none := by
  refine ⟨?_, ?_, ?_, ?_, ?_, by norm_num, by decide, by decide⟩
  · intro v i
    simp [get_duration_sec, qdiv_eq]
  · intro v i
    simp [get_duration_sec, qdiv_eq]
  · intro v i
    simp [get_duration_sec, qdiv_eq]
  · intro v old
    refine ⟨?_, ?_, ?_⟩ <;> simp [simple_duration, qdiv_eq]
  · have h : runSchedule ⟨"X", 2, [⟨0, 10, 30⟩, ⟨2, 500, 90⟩]⟩ =
        [(mkRat 10 1, mkRat 3 10), (mkRat 1 2, mkRat 9 10),
         (mkRat 10 1, mkRat 3 10), (mkRat 1 2, mkRat 9 10)] := by decide
    rw [h]
    norm_num [Rat.mkRat_eq_div]

theorem c7_unit_conversion_and_scenario_witness :
    get_duration_sec ⟨0, 10, 30⟩ = (10 : Rat) ∧
    get_duration_sec ⟨2, 500, 90⟩ = (500 : Rat) / 1000 ∧
    (cursorIter ⟨"X", 2, [⟨0, 10, 30⟩, ⟨2, 500, 90⟩]⟩ 3).isSome = true :=
  ⟨c7_unit_conversion_and_scenario.1 10 30,
   c7_unit_conversion_and_scenario.2.2.1 500 90,
   c7_unit_conversion_and_scenario.2.2.2.2.2.2.1 3 (by omega)⟩

/-- C8 counterexample: after authoring one step (60s at 50%) and cancelling
the wizard with a long press, the current-program slot still holds the
partially authored step, and a subsequent Run selection starts a run cursor
on that abandoned partial program — contradicting the claim that the slot no
longer holds the partial steps after the cancel. -/
theorem c8_create_cancel_retains_steps_cex :
    sPartial.main_state = MODE_CUSTOM_CREATE ∧
    sCancelled.main_state = MODE_CUSTOM_MENU ∧
    sCancelled.create_state = C_CREATE_START ∧
    sCancelled.current_program.steps = [⟨0, 60, 50⟩] ∧
    sRunPartial.c_start_ts = some 240 ∧
    sRunPartial.uv = qdiv 50 100 ∧
    sRunPartial.current_program.steps = [⟨0, 60, 50⟩] := by decide

/-- C8 (amended): a long press in any wizard state of CustomCreate returns to
CustomMenu and resets the wizard sub-state, but leaves the current-program
working slot (and everything else) unchanged; consequently a subsequent Run
selection executes the retained program — including a partially authored one —
starting a run cursor with the duty and duration of its first step. -/
theorem c8_create_cancel_amended :
    (∀ (s : State) (inp : Input),
       s.main_state = MODE_CUSTOM_CREATE → inp.pressed = true → inp.is_long = true →
       tick s inp = { s with main_state := MODE_CUSTOM_MENU, create_state := C_CREATE_START }) ∧
    (∀ (s : State) (inp : Input),
       s.main_state = MODE_CUSTOM_MENU → s.c_start_ts = none → s.run_state ≠ C_RUN_DONE →
       s.load_state = -1 → s.custom_menu_idx = C_MENU_RUN →
       inp.pressed = true → inp.is_long = false → inp.lid = false → inp.d = 0 →
       s.current_program.steps ≠ [] →
       (tick s inp).c_start_ts = some inp.now ∧
       (tick s inp).current_program = s.current_program ∧
       (tick s inp).uv = qdiv (s.current_program.steps.getD 0 defaultStep).i 100 ∧
       (tick s inp).c_run_duration_sec = get_duration_sec (s.current_program.steps.getD 0 defaultStep)) := by
  constructor
  · intro s inp hm hp hl
    exact tick_create_longpress s inp hm hp hl
  · intro s inp hm hts hrs hls hidx hp hl hlid hd hsteps
    rw [tick_run_select s inp hm hts hrs hls hidx hp hl hlid hd hsteps]
    exact ⟨rfl, rfl, rfl, rfl⟩

theorem c8_create_cancel_amended_witness :
    tick sPartial (pLong 210) =
      { sPartial with main_state := MODE_CUSTOM_MENU, create_state := C_CREATE_START } ∧
    (tick sCancelled (rPress 240)).c_start_ts = some 240 := by
  constructor
  · exact c8_create_cancel_amended.1 sPartial (pLong 210) (by decide) rfl rfl
  · -- the rotation of `rPress` moves the menu index to Run before the press
    -- confirms, so this instance goes through the nav handler directly
    decide

/-- C9: confirming a Load selection copies the selected store entry into the
current-program slot while leaving the store itself untouched, and the store
is never modified by any tick other than an explicit SavePrompt confirm — so
later edits of the current program cannot reach the store without a Save. -/
theorem c9_load_copies_store_only_changed_by_save :
    (∀ (s : State) (inp : Input),
       s.main_state = MODE_CUSTOM_MENU → s.c_start_ts = none → s.run_state ≠ C_RUN_DONE →
       s.load_state = C_LOAD_SELECT → inp.pressed = true → inp.is_long = false → inp.d = 0 →
       s.saved_programs ≠ [] →
       (tick s inp).current_program = s.saved_programs.getD s.load_program_idx.toNat defaultProgram ∧
       (tick s inp).saved_programs = s.saved_programs) ∧
    (∀ (s : State) (inp : Input),
       ¬(s.main_state = MODE_CUSTOM_CREATE ∧ s.create_state = C_CREATE_SAVE_PROG ∧
         inp.pressed = true ∧ inp.is_long = false) →
       (tick s inp).saved_programs = s.saved_programs) := by
  constructor
  · intro s inp hm hts hrs hls hp hl hd hne
    rw [tick_load_confirm s inp hm hts hrs hls hp hl hd hne]
    exact ⟨rfl, rfl⟩
  · intro s inp hnot
    unfold tick
    split_ifs with hsf hm0 hm1 hm2 hm3
    · rfl
    · exact (tickMainMenu_frame s inp).2.2.2.1
    · exact (tickSimple_frame s inp).2.1
    · unfold tickCustomMenu
      have hload : ∀ (x : State) (p : Bool),
          (if x.load_state ≠ -1 then loadBlock x inp p else x).saved_programs = x.saved_programs := by
        intro x p
        split_ifs
        · exact (loadBlock_frame x inp p).2.2.2.2.1
        · rfl
      by_cases hts : s.c_start_ts ≠ none
      · rw [if_pos hts, hload]
        exact (runDrive_frame s inp).1
      · rw [if_neg hts]
        by_cases hrd : s.run_state = C_RUN_DONE
        · rw [if_pos hrd, hload]
          exact (runDoneAck_frame s inp).1
        · rw [if_neg hrd]
          by_cases hls : s.load_state = -1
          · rw [if_pos hls, hload]
            exact (customNav_frame s inp).1
          · rw [if_neg hls, hload]
    · exact tickCreate_store s inp (fun hx => hnot ⟨hm3, hx.2.2, hx.1, hx.2.1⟩)
    · rfl

def c9wS : State := { initState (FileContent.good [wProgA]) with main_state := MODE_CUSTOM_MENU }
def c9wI : Input := ⟨0, true, false, false, 0, true⟩

theorem c9_load_copies_store_only_changed_by_save_witness :
    (tick c9wS c9wI).current_program
        = c9wS.saved_programs.getD c9wS.load_program_idx.toNat defaultProgram ∧
    (tick c9wS c9wI).saved_programs = c9wS.saved_programs :=
  c9_load_copies_store_only_changed_by_save.1 c9wS c9wI rfl rfl (by decide) rfl rfl rfl rfl
    (by decide)

/-- C10: persistence failures are soft.  Loading from a missing or corrupt
file yields the empty list (the read/parse error is caught, not propagated);
boot uses exactly that load; and a failed save leaves the on-file store
unchanged, leaves the in-memory store exactly as a successful save would, and
still returns the device to the Custom Menu. -/
theorem c10_persistence_failures_soft :
    load_programs_from_file .missing = [] ∧
    load_programs_from_file .corrupt = [] ∧
    (∀ (fc : FileContent) (e : String), readAndParse fc = .error e → load_programs_from_file fc = []) ∧
    (∀ fc : FileContent, (initState fc).saved_programs = load_programs_from_file fc) ∧
    (∀ (s : State) (inp : Input),
       s.main_state = MODE_CUSTOM_CREATE → s.create_state = C_CREATE_SAVE_PROG →
       inp.pressed = true → inp.is_long = false → inp.saveOk = false →
       (tick s inp).file = s.file ∧
       (tick s inp).saved_programs = (tick s { inp with saveOk := true }).saved_programs ∧
       (tick s inp).main_state = MODE_CUSTOM_MENU) := by
  refine ⟨rfl, rfl, ?_, fun fc => rfl, ?_⟩
  · intro fc e h
    cases fc <;> simp_all [readAndParse, load_programs_from_file]
  · intro s inp hm hc hp hl hok
    rw [tick_save_branch s inp hm hc hp hl,
      tick_save_branch s { inp with saveOk := true } hm hc hp hl]
    refine ⟨?_, rfl, rfl⟩
    simp [hok]

def c10wS : State :=
  { initState .missing with
    main_state := MODE_CUSTOM_CREATE, create_state := C_CREATE_SAVE_PROG,
    current_program := wProgA }
def c10wI : Input := ⟨0, true, false, false, 0, false⟩

theorem c10_persistence_failures_soft_witness :
    load_programs_from_file .corrupt = [] ∧
    (tick c10wS c10wI).file = c10wS.file ∧
    (tick c10wS c10wI).main_state = MODE_CUSTOM_MENU :=
  ⟨c10_persistence_failures_soft.2.1,
   (c10_persistence_failures_soft.2.2.2.2 c10wS c10wI rfl rfl rfl rfl rfl).1,
   (c10_persistence_failures_soft.2.2.2.2 c10wS c10wI rfl rfl rfl rfl rfl).2.2⟩

end UVOven
